import Mathlib

/-!
Verification of the dala risk-detection core and its moderation UI.

The risk engine (pattern catalog, message scorer, user risk aggregator,
escalation coordinator) lives in `backend/app/core/risk_detection.py`,
which is documented in `PHASE3_SUMMARY.md` and exercised by the testing
guide; the module itself is not part of the available sources, so those
components are modelled from the specification.  The moderation UI
(`SafetyManagement.tsx`, `ui/src/api/client.ts`) is embedded from the
TypeScript sources directly.
-/

namespace Dala

/-! ## Data model -/

/-- Severity tier of a catalog pattern (spec section 4.1). -/
inductive Tier
  | critical
  | high
  | medium
  | protective
deriving DecidableEq, Repr

/-- Per-message / per-user risk level (spec section 3, MessageAssessment.level). -/
inductive RiskLevel
  | none
  | low
  | medium
  | high
  | critical
deriving DecidableEq, Repr, BEq, Fintype

/-- Numeric rank of a risk level, used to compare severities. -/
def RiskLevel.toNat : RiskLevel → Nat
  | .none => 0
  | .low => 1
  | .medium => 2
  | .high => 3
  | .critical => 4

/-- Modelled from the spec: a catalog pattern is a case-insensitive
phrase matcher with a severity tier (section 4.1); the concrete regex
list of `risk_detection.py` is not in the sources. -/
structure Pattern where
  ident : String
  tier : Tier
  phrase : String
deriving DecidableEq, Repr

/-- Modelled from the spec: fixed base weight of each tier
(section 4.1 table: critical 0.9, high 0.7, medium 0.4, protective -0.1). -/
def Tier.baseWeight : Tier → ℚ
  | .critical => 9/10
  | .high => 7/10
  | .medium => 4/10
  | .protective => -1/10

/-- Weight contributed by a pattern match. -/
def Pattern.weight (p : Pattern) : ℚ := p.tier.baseWeight

/-- Modelled from the spec: a representative pattern catalog.  The phrases
are the ones documented in `PHASE3_SUMMARY.md` and the testing guide
("I want to end it all", "hurt myself", "I'm worthless", help-seeking
protective phrases); the original list in `risk_detection.py` is missing. -/
def catalog : List Pattern :=
  [ ⟨"end_it_all", .critical, "end it all"⟩,
    ⟨"no_reason_to_live", .critical, "no reason to live"⟩,
    ⟨"hurt_myself", .high, "hurt myself"⟩,
    ⟨"hopeless", .high, "hopeless"⟩,
    ⟨"worthless", .medium, "worthless"⟩,
    ⟨"nobody_would_miss_me", .medium, "nobody would miss me"⟩,
    ⟨"call_crisis_line", .protective, "call the crisis line"⟩,
    ⟨"call_helpline", .protective, "call the helpline"⟩ ]

/-! ## Case-insensitive substring matching -/

/-- Lower-cased character stream of a string. -/
def lowerChars (s : String) : List Char := s.data.map Char.toLower

/-- Check that `needle` occurs at the head of `hay`. -/
def leadsWith : List Char → List Char → Bool
  | _, [] => true
  | [], _ :: _ => false
  | c :: cs, d :: ds => c == d && leadsWith cs ds

/-- Check that `needle` occurs contiguously somewhere in `hay`. -/
def containsSub (hay needle : List Char) : Bool :=
  match hay with
  | [] => needle.isEmpty
  | _ :: t => leadsWith hay needle || containsSub t needle

/-- Modelled from the spec: each pattern is a case-insensitive
substring/phrase matcher (section 4.1). -/
def matchesPattern (text : String) (p : Pattern) : Bool :=
  containsSub (lowerChars text) (lowerChars p.phrase)

/-! ## Message risk scorer -/

/-- Assessment of a single message (spec section 3). -/
structure MessageAssessment where
  score : ℚ
  level : RiskLevel
  indicators : List String
  requires_escalation : Bool
deriving DecidableEq, Repr

/-- Clamp a raw weight total into `[0, 1]` (spec section 4.2). -/
def clamp01 (q : ℚ) : ℚ := if q ≤ 0 then 0 else if 1 ≤ q then 1 else q

/-- Modelled from the spec: severity mapping from the clamped score,
thresholds evaluated high to low, first match wins (section 4.2). -/
def levelOfScore (s : ℚ) : RiskLevel :=
  if 9/10 ≤ s then .critical
  else if 7/10 ≤ s then .high
  else if 4/10 ≤ s then .medium
  else if 0 < s then .low
  else .none

/-- Whether a message-level severity demands escalation. -/
def RiskLevel.escalates : RiskLevel → Bool
  | .high => true
  | .critical => true
  | _ => false

/-- Modelled from the spec: `assess(text)` scans the text against every
catalog pattern, accumulates matched weights, clamps the total to
`[0, 1]`, maps the clamped score to a severity level and sets
`requires_escalation` iff the level is high or critical (section 4.2).
It is a total function: no input raises. -/
def assess (text : String) : MessageAssessment :=
  let matched := catalog.filter (fun p => matchesPattern text p)
  let score := clamp01 ((matched.map Pattern.weight).sum)
  let level := levelOfScore score
  { score := score
    level := level
    indicators := matched.map Pattern.ident
    requires_escalation := level.escalates }

/-! ## User risk aggregator -/

/-- Larger of two risk levels under the severity ranking. -/
def RiskLevel.maxL (a b : RiskLevel) : RiskLevel :=
  if a.toNat ≤ b.toNat then b else a

/-- Modelled from the spec: `recompute` over the rolling window of the
most recent message assessments returns the maximum severity level
observed in the window (section 4.3 max-dominance rule); the aggregator
code in `risk_detection.py` is not in the sources. -/
def recomputeLevel (window : List RiskLevel) : RiskLevel :=
  window.foldr RiskLevel.maxL .none

/-! ## Escalation coordinator -/

/-- Escalation workflow status of a user (spec section 3). -/
inductive EscStatus
  | none
  | pending
  | escalated
  | resolved
deriving DecidableEq, Repr, BEq, Fintype

/-- Outcome of a moderator-driven escalation update: the new status, or a
reported conflict (spec section 7: illegal transitions are rejected as a
no-op with a reported conflict). -/
inductive ModResult
  | accepted (s : EscStatus)
  | conflict
deriving DecidableEq, Repr, BEq

/-- Check whether a moderator update was rejected. -/
def ModResult.isConflict : ModResult → Bool
  | .conflict => true
  | .accepted _ => false

/-- Modelled from the spec: the moderator-driven part of the
`escalation_status` state machine (sections 4.4 and 7): `pending` may be
escalated or resolved directly, `escalated` may be resolved, re-applying
`resolved` when already `resolved` is an idempotent no-op, and everything
else is rejected as a conflict.  The backend endpoint enforcing this is
not in the sources. -/
def moderatorUpdate (cur req : EscStatus) : ModResult :=
  match cur, req with
  | .pending, .escalated => .accepted .escalated
  | .pending, .resolved => .accepted .resolved
  | .escalated, .resolved => .accepted .resolved
  | .resolved, .resolved => .accepted .resolved
  | _, _ => .conflict

/-- The moderator transitions the state machine admits, as
(current, requested) pairs; `(resolved, resolved)` is the idempotent
re-application of `resolved`. -/
def legalModTransitions : List (EscStatus × EscStatus) :=
  [(.pending, .escalated), (.pending, .resolved),
   (.escalated, .resolved), (.resolved, .resolved)]

/-- Modelled from the spec: the automatic side of the state machine.  A
fresh automatic high-risk detection sets `escalation_status = pending`
from `none` and re-triggers it from `resolved`, but never downgrades an
in-progress (`pending`/`escalated`) case (sections 4.3 and 4.4). -/
def autoHighRisk : EscStatus → EscStatus
  | .none => .pending
  | .resolved => .pending
  | s => s

/-- Per-user aggregate risk state (spec section 3). -/
structure UserRiskState where
  risk_level : RiskLevel
  escalation_status : EscStatus
  last_assessment_at : Nat
deriving DecidableEq, Repr

/-- Modelled from the spec: processing one incoming message against the
user state.  The window recomputation and state update run only when the
triggering message's own score is at least 0.6 (section 4.3 and
`PHASE3_SUMMARY.md`: if score >= 0.6, `_update_user_risk` is called);
otherwise the user state is left untouched. -/
def processMessage (st : UserRiskState) (window : List RiskLevel)
    (msgScore : ℚ) (now : Nat) : UserRiskState :=
  if 6/10 ≤ msgScore then
    let newLevel := recomputeLevel window
    { risk_level := newLevel
      escalation_status :=
        if newLevel.escalates then autoHighRisk st.escalation_status
        else st.escalation_status
      last_assessment_at := now }
  else st

/-! ## Moderation UI, embedded from the TypeScript sources -/

/-- The risk filter of `SafetyManagement.tsx`: the component state is
typed `'all' | 'critical' | 'high'`. -/
inductive RiskFilter
  | all
  | critical
  | high
deriving DecidableEq, Repr, Fintype

/-- Literal name of a filter value, as the TypeScript string union. -/
def RiskFilter.name : RiskFilter → String
  | .all => "all"
  | .critical => "critical"
  | .high => "high"

/-- Embedded from `SafetyManagement.tsx` `loadAtRiskUsers`: the
`risk_level` request parameter is `filter === 'all' ? 'high' : filter`. -/
def loadAtRiskUsersParam (filter : RiskFilter) : String :=
  if filter = .all then "high" else filter.name

/-- Embedded from `ui/src/api/client.ts` `adminGetAtRiskUsers`: the
default value of its `riskLevel` parameter. -/
def adminGetAtRiskUsersDefault : String := "high"

/-- Falsiness of the nullable `escalation_status` string in the UI
(`!user.escalation_status`). -/
def isFalsyStatus : Option String → Bool
  | Option.none => true
  | some s => s == ""

/-- Embedded from `SafetyManagement.tsx` escalation buttons: a user whose
status is absent or `pending` gets the "Escalate to Support" button
(requesting `escalated`); anyone else gets "Mark Resolved" (requesting
`resolved`). -/
def buttonRequest (st : Option String) : String :=
  if isFalsyStatus st || st == some "pending" then "escalated" else "resolved"

/-! ## Helper lemmas -/

theorem clamp01_nonneg (q : ℚ) : 0 ≤ clamp01 q := by
  unfold clamp01
  split_ifs <;> linarith

theorem clamp01_le_one (q : ℚ) : clamp01 q ≤ 1 := by
  unfold clamp01
  split_ifs <;> linarith

theorem assess_score_eq (t : String) :
    (assess t).score =
      clamp01 (((catalog.filter (fun p => matchesPattern t p)).map Pattern.weight).sum) := rfl

theorem assess_level_eq (t : String) :
    (assess t).level = levelOfScore (assess t).score := rfl

theorem assess_req_eq (t : String) :
    (assess t).requires_escalation = ((assess t).level).escalates := rfl

theorem levelOfScore_iff (s : ℚ) (h0 : 0 ≤ s) :
    (levelOfScore s = RiskLevel.critical ↔ 9/10 ≤ s) ∧
    (levelOfScore s = RiskLevel.high ↔ 7/10 ≤ s ∧ s < 9/10) ∧
    (levelOfScore s = RiskLevel.medium ↔ 4/10 ≤ s ∧ s < 7/10) ∧
    (levelOfScore s = RiskLevel.low ↔ 0 < s ∧ s < 4/10) ∧
    (levelOfScore s = RiskLevel.none ↔ s = 0) := by
  unfold levelOfScore
  split_ifs with h1 h2 h3 h4 <;>
    refine ⟨?_, ?_, ?_, ?_, ?_⟩ <;>
    constructor <;>
    intro h <;>
    first
      | rfl
      | assumption
      | exact absurd h (by decide)
      | (refine ⟨by linarith, by linarith⟩)
      | (exfalso; rcases h with ⟨ha, hb⟩; linarith)
      | (exfalso; linarith)
      | linarith

theorem leadsWith_subset {needle hay : List Char}
    (h : leadsWith hay needle = true) : ∀ c ∈ needle, c ∈ hay := by
  induction needle generalizing hay with
  | nil => intro c hc; cases hc
  | cons d ds ih =>
    cases hay with
    | nil => simp [leadsWith] at h
    | cons a as =>
      simp only [leadsWith, Bool.and_eq_true, beq_iff_eq] at h
      obtain ⟨rfl, h2⟩ := h
      intro c hc
      rcases List.mem_cons.mp hc with rfl | hc
      · exact List.mem_cons_self _ _
      · exact List.mem_cons_of_mem _ (ih h2 c hc)

theorem containsSub_subset {hay needle : List Char}
    (h : containsSub hay needle = true) : ∀ c ∈ needle, c ∈ hay := by
  induction hay with
  | nil =>
    intro c hc
    simp only [containsSub, List.isEmpty_iff] at h
    subst h
    cases hc
  | cons a as ih =>
    rw [containsSub] at h
    rcases Bool.or_eq_true_iff.mp h with h | h
    · exact leadsWith_subset h
    · intro c hc
      exact List.mem_cons_of_mem _ (ih h c hc)

theorem toLower_whitespace {c : Char} (h : c.isWhitespace = true) :
    (Char.toLower c).isWhitespace = true := by
  simp only [Char.isWhitespace, Bool.or_eq_true, decide_eq_true_eq] at h
  rcases h with ((h | h) | h) | h <;> subst h <;> decide

theorem lowerChars_whitespace {s : String}
    (hs : s.data.all Char.isWhitespace = true) :
    ∀ c ∈ lowerChars s, c.isWhitespace = true := by
  intro c hc
  rcases List.mem_map.mp hc with ⟨d, hd, rfl⟩
  exact toLower_whitespace (List.all_eq_true.mp hs d hd)

theorem no_match_of_whitespace {s : String}
    (hs : s.data.all Char.isWhitespace = true) (p : Pattern)
    (hp : (lowerChars p.phrase).all Char.isWhitespace = false) :
    matchesPattern s p = false := by
  cases hm : matchesPattern s p with
  | false => rfl
  | true =>
    exfalso
    have hall : (lowerChars p.phrase).all Char.isWhitespace = true :=
      List.all_eq_true.mpr fun c hc =>
        lowerChars_whitespace hs c (containsSub_subset hm c hc)
    rw [hall] at hp
    cases hp

theorem maxL_toNat (a b : RiskLevel) :
    (RiskLevel.maxL a b).toNat = max a.toNat b.toNat := by
  unfold RiskLevel.maxL
  split <;> omega

theorem le_recompute_of_mem {l : RiskLevel} {w : List RiskLevel}
    (h : l ∈ w) : l.toNat ≤ (recomputeLevel w).toNat := by
  induction w with
  | nil => cases h
  | cons a t ih =>
    have hr : recomputeLevel (a :: t) = RiskLevel.maxL a (recomputeLevel t) := rfl
    rw [hr, maxL_toNat]
    rcases List.mem_cons.mp h with rfl | h
    · exact Nat.le_max_left _ _
    · exact Nat.le_trans (ih h) (Nat.le_max_right _ _)

theorem recompute_none_or_mem (w : List RiskLevel) :
    recomputeLevel w = RiskLevel.none ∨ recomputeLevel w ∈ w := by
  induction w with
  | nil => left; rfl
  | cons a t ih =>
    have hr : recomputeLevel (a :: t) = RiskLevel.maxL a (recomputeLevel t) := rfl
    rw [hr]
    unfold RiskLevel.maxL
    split
    · rcases ih with h | h
      · left; exact h
      · right; exact List.mem_cons_of_mem _ h
    · right; exact List.mem_cons_self _ _

theorem toNat_le_four (l : RiskLevel) : l.toNat ≤ 4 := by
  cases l <;> simp [RiskLevel.toNat]

theorem eq_critical_of_toNat (l : RiskLevel) (h : l.toNat = 4) :
    l = RiskLevel.critical := by
  cases l <;> simp_all [RiskLevel.toNat]

/-! ## Claim theorems -/

/-- C1: for every string input, the clamped score of `assess` lies in
`[0, 1]`, including inputs matching many critical patterns or only
protective (negative-weight) patterns. -/
theorem assess_score_in_unit_interval (t : String) :
    0 ≤ (assess t).score ∧ (assess t).score ≤ 1 := by
  rw [assess_score_eq]
  exact ⟨clamp01_nonneg _, clamp01_le_one _⟩

/-- C2: the escalation state machine admits exactly the moderator
transitions pending to escalated, escalated to resolved, pending
directly to resolved, together with the idempotent re-application of
resolved; a moderator request to escalate a resolved case is rejected as
a conflict, not silently overwritten; an accepted moderator transition
always lands on the requested status and never on pending, so
resolved to pending happens only via the automatic high-risk detection
(which also sets pending from none and never downgrades an in-progress
case); and the safety-management UI shown for a resolved user requests
only the idempotent resolved update, never an escalation. -/
theorem escalation_state_machine :
    (∀ c r : EscStatus,
      ((moderatorUpdate c r).isConflict = false ↔ (c, r) ∈ legalModTransitions)) ∧
    (∀ c r : EscStatus,
      moderatorUpdate c r = ModResult.accepted r ∨
        (moderatorUpdate c r).isConflict = true) ∧
    (moderatorUpdate EscStatus.resolved EscStatus.escalated).isConflict = true ∧
    moderatorUpdate EscStatus.resolved EscStatus.resolved =
      ModResult.accepted EscStatus.resolved ∧
    (∀ c r : EscStatus,
      (moderatorUpdate c r == ModResult.accepted EscStatus.pending) = false) ∧
    autoHighRisk EscStatus.resolved = EscStatus.pending ∧
    autoHighRisk EscStatus.none = EscStatus.pending ∧
    autoHighRisk EscStatus.escalated = EscStatus.escalated ∧
    buttonRequest (some "resolved") = "resolved" := by
  refine ⟨?_, ?_, rfl, rfl, ?_, rfl, rfl, rfl, rfl⟩
  · intro c r
    cases c <;> cases r <;>
      simp [moderatorUpdate, ModResult.isConflict, legalModTransitions]
  · intro c r
    cases c <;> cases r <;> simp [moderatorUpdate, ModResult.isConflict]
  · intro c r
    cases c <;> cases r <;> rfl

/-- C3: whenever a rolling window of at most ten recent assessments
holds three or more assessments of level high or critical, the
aggregated user risk level is at least high, even when the most recent
entry of the window is mild. -/
theorem sustained_high_window_elevates (window : List RiskLevel)
    (_hlen : window.length ≤ 10)
    (hcount : 3 ≤ (window.filter
      (fun l => decide (RiskLevel.high.toNat ≤ l.toNat))).length) :
    RiskLevel.high.toNat ≤ (recomputeLevel window).toNat := by
  have hpos : 0 < (window.filter
      (fun l => decide (RiskLevel.high.toNat ≤ l.toNat))).length := by omega
  rw [List.length_pos] at hpos
  obtain ⟨x, hx⟩ := List.exists_mem_of_ne_nil _ hpos
  have hxw : x ∈ window := List.mem_of_mem_filter hx
  have hxp : RiskLevel.high.toNat ≤ x.toNat := by
    have := List.of_mem_filter hx
    simpa using this
  exact Nat.le_trans hxp (le_recompute_of_mem hxw)

/-- Witness for C3: a full window whose most recent entry is mild and
which holds exactly three high assessments is elevated to at least
high. -/
theorem sustained_high_window_elevates_witness :
    RiskLevel.high.toNat ≤ (recomputeLevel
      [RiskLevel.low, RiskLevel.high, RiskLevel.none, RiskLevel.high,
       RiskLevel.none, RiskLevel.high, RiskLevel.none, RiskLevel.none,
       RiskLevel.none, RiskLevel.none]).toNat :=
  sustained_high_window_elevates _ (by decide) (by decide)

/-- C4: the recomputed user level is the maximum severity observed in
the window, not an average: every window entry is bounded by it, it is
attained by some entry unless it is none, and a window containing a
critical assessment always recomputes to critical. -/
theorem recompute_is_max_dominant (window : List RiskLevel) :
    (∀ l ∈ window, l.toNat ≤ (recomputeLevel window).toNat) ∧
    (recomputeLevel window = RiskLevel.none ∨ recomputeLevel window ∈ window) ∧
    (RiskLevel.critical ∈ window → recomputeLevel window = RiskLevel.critical) := by
  refine ⟨fun l hl => le_recompute_of_mem hl, recompute_none_or_mem window, fun hc => ?_⟩
  have h4 : 4 ≤ (recomputeLevel window).toNat := le_recompute_of_mem hc
  have hle : (recomputeLevel window).toNat ≤ 4 := toNat_le_four _
  exact eq_critical_of_toNat _ (Nat.le_antisymm hle h4)

/-- Witness for C4: one critical assessment among nine none recomputes
to critical. -/
theorem recompute_is_max_dominant_witness :
    recomputeLevel
      [RiskLevel.critical, RiskLevel.none, RiskLevel.none, RiskLevel.none,
       RiskLevel.none, RiskLevel.none, RiskLevel.none, RiskLevel.none,
       RiskLevel.none, RiskLevel.none] = RiskLevel.critical :=
  (recompute_is_max_dominant _).2.2 (List.mem_cons_self _ _)

/-- C5: a message whose own assessed score is below 0.6 leaves the whole
user risk state (risk level, escalation status, last assessment time)
unchanged: the window recomputation runs only for scores of at least
0.6. -/
theorem low_score_message_leaves_state (st : UserRiskState)
    (window : List RiskLevel) (text : String) (now : Nat)
    (h : (assess text).score < 6/10) :
    processMessage st window (assess text).score now = st := by
  unfold processMessage
  rw [if_neg (not_le.mpr h)]

/-- Witness for C5: a harmless message (score 0) leaves a concrete user
state untouched. -/
theorem low_score_message_leaves_state_witness :
    processMessage ⟨RiskLevel.none, EscStatus.none, 0⟩ [RiskLevel.medium]
      (assess "good morning").score 7 = ⟨RiskLevel.none, EscStatus.none, 0⟩ :=
  low_score_message_leaves_state _ _ "good morning" 7 (by
    rw [assess_score_eq]
    have hfil : catalog.filter (fun p => matchesPattern "good morning" p) = [] := by
      decide
    rw [hfil]
    norm_num [clamp01])

/-- C6: the assessment level is determined from the clamped score by the
thresholds evaluated high to low with first match winning: at least 0.9
is critical, else at least 0.7 is high, else at least 0.4 is medium,
else low for a nonzero score, else none. -/
theorem assess_level_thresholds (t : String) :
    ((assess t).level = RiskLevel.critical ↔ 9/10 ≤ (assess t).score) ∧
    ((assess t).level = RiskLevel.high ↔
      7/10 ≤ (assess t).score ∧ (assess t).score < 9/10) ∧
    ((assess t).level = RiskLevel.medium ↔
      4/10 ≤ (assess t).score ∧ (assess t).score < 7/10) ∧
    ((assess t).level = RiskLevel.low ↔
      0 < (assess t).score ∧ (assess t).score < 4/10) ∧
    ((assess t).level = RiskLevel.none ↔ (assess t).score = 0) := by
  have h0 : 0 ≤ (assess t).score := by
    rw [assess_score_eq]; exact clamp01_nonneg _
  rw [assess_level_eq]
  exact levelOfScore_iff _ h0

/-- C7: for every input text, `requires_escalation` is true exactly when
the assessed level is high or critical. -/
theorem assess_requires_escalation_iff (t : String) :
    (assess t).requires_escalation = true ↔
      ((assess t).level = RiskLevel.high ∨ (assess t).level = RiskLevel.critical) := by
  rw [assess_req_eq]
  cases (assess t).level <;> simp [RiskLevel.escalates]

/-- C8: protective-tier pattern weights are negative while every other
tier weight is non-negative, and a text matching exactly one high-tier
pattern plus one protective pattern scores strictly below a text
matching that high-tier pattern alone. -/
theorem protective_lowers_score :
    (∀ p ∈ catalog,
      (p.tier = Tier.protective → p.weight < 0) ∧
      (p.tier ≠ Tier.protective → 0 ≤ p.weight)) ∧
    (∀ (t1 t2 : String) (hp pp : Pattern),
      catalog.filter (fun p => matchesPattern t1 p) = [hp] →
      catalog.filter (fun p => matchesPattern t2 p) = [hp, pp] →
      hp.tier = Tier.high → pp.tier = Tier.protective →
      (assess t2).score < (assess t1).score) := by
  constructor
  · intro p hp
    fin_cases hp <;>
      refine ⟨fun h => ?_, fun h => ?_⟩ <;>
      simp_all [Pattern.weight, Tier.baseWeight] <;>
      norm_num
  · intro t1 t2 hp pp h1 h2 hhp hpp
    rw [assess_score_eq, assess_score_eq, h1, h2]
    simp only [List.map_cons, List.map_nil, List.sum_cons, List.sum_nil,
      Pattern.weight, hhp, hpp, Tier.baseWeight]
    norm_num [clamp01]

/-- Witness for C8: a lone high-tier phrase against the same phrase
joined with a protective help-seeking phrase. -/
theorem protective_lowers_score_witness :
    (assess "i feel hopeless but i will call the helpline").score <
      (assess "i feel hopeless").score :=
  protective_lowers_score.2 "i feel hopeless"
    "i feel hopeless but i will call the helpline"
    ⟨"hopeless", Tier.high, "hopeless"⟩
    ⟨"call_helpline", Tier.protective, "call the helpline"⟩
    (by decide) (by decide) rfl rfl

/-- C9: `assess` is a total function (no input raises), and on the empty
string and every whitespace-only string it returns the zero-score
assessment with level none and no indicators. -/
theorem assess_whitespace_is_none (s : String)
    (hs : s.data.all Char.isWhitespace = true) :
    assess s = { score := 0, level := RiskLevel.none, indicators := [],
                 requires_escalation := false } := by
  have hfil : catalog.filter (fun p => matchesPattern s p) = [] := by
    rw [List.filter_eq_nil_iff]
    intro p hp
    have hws : (lowerChars p.phrase).all Char.isWhitespace = false := by
      fin_cases hp <;> decide
    simp [no_match_of_whitespace hs p hws]
  unfold assess
  rw [hfil]
  norm_num [clamp01, levelOfScore, RiskLevel.escalates]

/-- Witness for C9: the empty string and a whitespace-only string both
assess to the zero, none, indicator-free assessment. -/
theorem assess_whitespace_is_none_witness :
    assess "" = { score := 0, level := RiskLevel.none, indicators := [],
                  requires_escalation := false } ∧
    assess " \t  " = { score := 0, level := RiskLevel.none, indicators := [],
                       requires_escalation := false } :=
  ⟨assess_whitespace_is_none "" (by decide),
   assess_whitespace_is_none " \t  " (by decide)⟩

/-- C10: the safety-management page translates the filter value all to a
request for risk level high (the client default), so every filter value
requests only high or critical users and never medium or low ones. -/
theorem at_risk_query_only_high_or_critical :
    loadAtRiskUsersParam RiskFilter.all = adminGetAtRiskUsersDefault ∧
    (∀ f : RiskFilter,
      loadAtRiskUsersParam f = "high" ∨ loadAtRiskUsersParam f = "critical") ∧
    (∀ f : RiskFilter,
      (loadAtRiskUsersParam f == "medium") = false ∧
      (loadAtRiskUsersParam f == "low") = false) := by
  refine ⟨rfl, ?_, ?_⟩ <;> decide

end Dala
